import Mathlib

/-!
Shallow embedding of `src/agent.py` of the smart-playlist-curator
repository, together with proofs of the specification claims.

Python machine types are embedded as follows: Python `int` becomes `Int`;
Python `float` values that hold exact small multiples of 0.5 (the only
floats this program manipulates) become `Rat`, with `//`, `%` and `int()`
given their Python semantics as `pyFloorDiv`, `pyFmod` and `pyInt`;
Python strings become `String`, with `str.lower()`, `str.strip()` and
char slicing embedded as the structurally recursive `pyLower`, `pyStrip`
and `pyTake` over the character list.  The dynamically typed values that
can flow out of the external agent call are embedded as the closed type
`PyVal`, and the observable behaviour of the opaque external invocation
(lines 248-249 of agent.py) as the type `Invocation`: either a returned
`AgentResult` or a raised exception carrying its message string.
-/

namespace PlaylistCurator

/-- Python `str.lower()` (ASCII case folding, character by character). -/
def pyLower (s : String) : String :=
  ⟨s.data.map Char.toLower⟩

/-- Python whitespace for `str.strip()`. -/
def pyIsSpaceChar (c : Char) : Bool :=
  c = ' ' || c = '\t' || c = '\n' || c = '\r' || c = '\x0b' || c = '\x0c'

/-- Python `str.strip()`: drop leading and trailing whitespace. -/
def pyStrip (s : String) : String :=
  ⟨((s.data.dropWhile pyIsSpaceChar).reverse.dropWhile pyIsSpaceChar).reverse⟩

/-- Python slicing `s[:n]` on strings: the first `n` characters. -/
def pyTake (s : String) (n : Nat) : String :=
  ⟨s.data.take n⟩

/-- Python `int(x)` on a float/rational: truncation toward zero. -/
def pyInt (x : Rat) : Int :=
  if 0 ≤ x then ⌊x⌋ else ⌈x⌉

/-- Python floor division `x // y` on floats (result is an integral float). -/
def pyFloorDiv (x y : Rat) : Rat :=
  (⌊x / y⌋ : Int)

/-- Python modulo `x % y` on floats: `x - y * (x // y)`; for `y > 0` the
result lies in `[0, y)`. -/
def pyFmod (x y : Rat) : Rat :=
  x - y * pyFloorDiv x y

/-- agent.py lines 25-44, `calculate_playlist_duration` (the `try` body;
the `except` arm is unreachable for well-typed numeric arguments). -/
def calculate_playlist_duration (num_songs : Int) (avg_song_duration : Rat := 3.5) :
    String :=
  let total_minutes : Rat := num_songs * avg_song_duration
  let hours : Int := pyInt (pyFloorDiv total_minutes 60)
  let minutes : Int := pyInt (pyFmod total_minutes 60)
  if hours > 0 then
    toString hours ++ " hour(s) and " ++ toString minutes ++ " minute(s)"
  else
    toString minutes ++ " minute(s)"

/-- agent.py lines 60-69: the fixed mood lookup table. -/
def mood_mapping : List (String × String) :=
  [("happy", "upbeat cheerful positive feel-good"),
   ("sad", "melancholic emotional ballad slow"),
   ("energetic", "high-energy fast-paced pumped powerful"),
   ("calm", "relaxing peaceful ambient chill mellow"),
   ("romantic", "love romantic intimate soft"),
   ("angry", "aggressive intense heavy powerful"),
   ("focused", "instrumental concentration deep-focus"),
   ("nostalgic", "throwback classic retro memories")]

/-- agent.py lines 72-81: the fixed activity lookup table. -/
def activity_mapping : List (String × String) :=
  [("workout", "gym training fitness motivation high-tempo"),
   ("study", "concentration focus instrumental background"),
   ("party", "dance celebration upbeat crowd-pleaser"),
   ("sleep", "lullaby sleep ambient soft gentle"),
   ("driving", "road-trip driving cruising"),
   ("cooking", "upbeat background feel-good casual"),
   ("meditation", "zen mindfulness ambient peaceful"),
   ("work", "productivity focus instrumental background")]

/-- agent.py lines 46-89, `get_mood_music_keywords` (the `try` body; the
`except` arm is unreachable since lower/strip/lookup cannot raise on
strings). `dict.get(k, default)` is `(List.lookup k).getD default`. -/
def get_mood_music_keywords (mood activity : String) : String :=
  let mood := pyStrip (pyLower mood)
  let activity := pyStrip (pyLower activity)
  let mood_keywords := (mood_mapping.lookup mood).getD mood
  let activity_keywords := (activity_mapping.lookup activity).getD activity
  mood_keywords ++ " " ++ activity_keywords ++ " music songs playlist"

/-- agent.py lines 91-105, `suggest_song_count`: the average song duration
is the local constant 3.5 and `int(...)` truncates the quotient. -/
def suggest_song_count (duration_minutes : Int) : String :=
  let avg_song_duration : Rat := 3.5
  let suggested_songs : Int := pyInt (duration_minutes / avg_song_duration)
  "For " ++ toString duration_minutes ++ " minutes, suggest approximately "
    ++ toString suggested_songs ++ " songs"

/-- agent.py lines 107-119, `format_playlist_output`. -/
def format_playlist_output (playlist_data : String) : String :=
  "Formatted Playlist:\n" ++ playlist_data

/-- A transcript role: the first component of the `(role, content)` tuples
appended to `chat_history` (agent.py lines 270-271). -/
inductive Role where
  | human : Role
  | assistant : Role
deriving DecidableEq, Repr

/-- One transcript turn, a `(role, content)` pair. -/
abbrev Turn := Role × String

/-- A dynamically typed Python value that can appear as the agent result
field `output` or attribute: a string, `None`, or any other object with a
truthiness flag and a `str()` rendering. -/
inductive PyVal where
  | pstr : String → PyVal
  | pnone : PyVal
  | pother : Bool → String → PyVal
deriving DecidableEq, Repr

/-- Python truthiness of a `PyVal` (`if not output: ...`). -/
def pyTruthy : PyVal → Bool
  | .pstr s => !s.isEmpty
  | .pnone => false
  | .pother t _ => t

/-- Python `str()` of a `PyVal`. -/
def pyStr : PyVal → String
  | .pstr s => s
  | .pnone => "None"
  | .pother _ r => r

/-- The shape of the value returned by `agent_executor.invoke` as probed by
agent.py lines 251-260: `None`, a dict (only its optional `output` entry is
ever read), a non-dict object with an `output` attribute holding the given
value, or any other object with the given `str()` rendering. -/
inductive AgentResult where
  | noneRes : AgentResult
  | dictRes : Option PyVal → AgentResult
  | objRes : PyVal → String → AgentResult
  | otherRes : String → AgentResult
deriving DecidableEq, Repr

/-- Observable behaviour of one call to the opaque external agent executor
(agent.py line 249): it either returns an `AgentResult` or raises an
exception whose message is the given string. -/
inductive Invocation where
  | ok : AgentResult → Invocation
  | exn : String → Invocation
deriving DecidableEq, Repr

/-- agent.py lines 262-263: after shape-probing, a non-string or falsy
`output` is replaced by the trouble-understanding fallback. -/
def output_guard (o : PyVal) : String :=
  match o with
  | .pstr s => if s.isEmpty then
      "I\x27m having trouble understanding. Could you rephrase your question?"
    else s
  | _ => "I\x27m having trouble understanding. Could you rephrase your question?"

/-- agent.py lines 251-263: normalization of a returned (non-raising)
agent result into a string. -/
def normalize_response (r : AgentResult) : String :=
  match r with
  | .noneRes => output_guard (.pstr "No response was generated. Please try again.")
  | .dictRes out =>
    let o := out.getD (.pstr "")
    if pyTruthy o then output_guard o
    else output_guard (.pstr
      "I didn\x27t get a proper response. Could you rephrase your question?")
  | .objRes v r =>
    if v = PyVal.pnone then output_guard (.pstr r)
    else output_guard (.pstr (pyStr v))
  | .otherRes r => output_guard (.pstr r)

/-- agent.py lines 248-266: the inner try/except around the invocation.
A raised exception is converted to the apology string embedding the
exception message; a returned result is normalized. -/
def agent_output (beh : Invocation) : String :=
  match beh with
  | .ok r => normalize_response r
  | .exn e =>
    "I encountered an error: " ++ e ++ ". Could you please rephrase your question?"

/-- agent.py lines 268-271: the exchange is appended to the transcript
only when the normalized output is truthy (non-empty) and differs from the
literal sentinel `No response generated`. -/
def update_history (hist : List Turn) (user_input output : String) : List Turn :=
  if ¬output.isEmpty ∧ output ≠ "No response generated" then
    hist ++ [(Role.human, user_input), (Role.assistant, output)]
  else hist

/-- agent.py lines 273-275: keep only the last 20 entries
(`chat_history[-20:]`) once the transcript exceeds 20 entries. -/
def cap_history (hist : List Turn) : List Turn :=
  if hist.length > 20 then hist.drop (hist.length - 20) else hist

/-- agent.py lines 228-236: translation of the transcript into the message
objects expected by the framework; human turns always convert, assistant
turns only when their content is a non-empty string. -/
inductive Msg where
  | humanMessage : String → Msg
  | aiMessage : String → Msg
deriving DecidableEq, Repr

/-- agent.py lines 228-236, the `formatted_history` loop. -/
def format_chat_history (hist : List Turn) : List Msg :=
  hist.filterMap (fun t =>
    match t with
    | (Role.human, c) => some (Msg.humanMessage c)
    | (Role.assistant, c) => if ¬c.isEmpty then some (Msg.aiMessage c) else none)

/-- agent.py lines 210-282, `chat`: normalizes the invocation behaviour,
conditionally appends the exchange, enforces the 20-entry cap, and returns
the output string (with a final fallback for an empty output) together
with the updated transcript. The outer catch-all except (lines 279-282)
has no reachable trigger in the pure embedding. -/
def chat (user_input : String) (hist : List Turn) (beh : Invocation) :
    String × List Turn :=
  let output := agent_output beh
  let hist := cap_history (update_history hist user_input output)
  (if ¬output.isEmpty then output
   else "I\x27m not sure how to respond to that. Could you rephrase?", hist)

/-- Outcome of the startup environment check in the `__main__` block. -/
inductive StartupOutcome where
  | exited : Nat → String → StartupOutcome
  | ready : StartupOutcome
deriving DecidableEq, Repr

/-- agent.py lines 294-306: `os.getenv` yields `none` when the variable is
absent; `if not os.getenv(k)` fires on absence or emptiness, prints a
remediation message and calls `sys.exit(1)`. Agent construction (line 313)
is reached only on the `ready` outcome. -/
def startup_check (groq_key tavily_key : Option String) : StartupOutcome :=
  if (groq_key.getD "").isEmpty then
    .exited 1 "GROQ_API_KEY not found in .env file! Please create a .env file with GROQ_API_KEY and TAVILY_API_KEY."
  else if (tavily_key.getD "").isEmpty then
    .exited 1 "TAVILY_API_KEY not found in .env file! Please add TAVILY_API_KEY to your .env file."
  else .ready

/-- Whether the `__main__` block proceeds to `create_agent()` (agent.py
line 313), which happens exactly when the startup check passed. -/
def reaches_agent_construction (groq_key tavily_key : Option String) : Bool :=
  match startup_check groq_key tavily_key with
  | .ready => true
  | .exited _ _ => false

/-- agent.py line 343: one `history` preview line, truncating content
beyond 100 characters with an ellipsis. -/
def preview_line (t : Turn) : String :=
  let role := match t.1 with
    | Role.human => "human"
    | Role.assistant => "assistant"
  let message := t.2
  let preview :=
    if message.length > 100 then pyTake message 100 ++ "..." else message
  role ++ ": " ++ preview

/-- The action one iteration of the interactive loop (agent.py lines
323-355) takes after reading a line. -/
inductive LoopAction where
  | skipEmpty : LoopAction
  | quitLoop : LoopAction
  | printHistory : List String → LoopAction
  | clearHistory : LoopAction
  | forward : String → LoopAction
deriving DecidableEq, Repr

/-- agent.py lines 323-355: one iteration of the interactive loop on input
line `raw` with current transcript `hist`: the input is stripped, empty
input is skipped, the reserved control tokens are matched case-insensitively,
and only non-reserved input is forwarded to `chat`. Returns the action and
the transcript afterward. -/
def loop_step (raw : String) (hist : List Turn) : LoopAction × List Turn :=
  let user_input := pyStrip raw
  if user_input.isEmpty then (.skipEmpty, hist)
  else if pyLower user_input = "quit" ∨ pyLower user_input = "exit" ∨
      pyLower user_input = "q" then (.quitLoop, hist)
  else if pyLower user_input = "history" then
    (.printHistory (hist.map preview_line), hist)
  else if pyLower user_input = "clear" then (.clearHistory, [])
  else (.forward user_input, hist)

/-- One transcript-mutating session operation: a completed chat exchange
(agent.py `chat`) or an explicit `clear` (agent.py line 349). -/
inductive SessionOp where
  | exchange : String → Invocation → SessionOp
  | clearAll : SessionOp

/-- Effect of one session operation on the transcript. -/
def session_step (hist : List Turn) (op : SessionOp) : List Turn :=
  match op with
  | .exchange input beh => (chat input hist beh).2
  | .clearAll => []

/-- Transcript reached from the empty transcript after a sequence of
session operations. -/
def run_session (ops : List SessionOp) : List Turn :=
  ops.foldl session_step []

/-- The transcript shape invariant: a sequence of complete
`(human, _), (assistant, _)` pairs. -/
def alternatingPairs : List Turn → Bool
  | [] => true
  | (Role.human, _) :: (Role.assistant, _) :: rest => alternatingPairs rest
  | _ => false

/-- The duration calculator exactly as the specification words it:
total = songCount x avgMinutesPerSong, hours = floor(total/60),
minutes = floor(total mod 60), rendered with the hour part only when
hours > 0. Stated for comparison with `calculate_playlist_duration`. -/
def estimateDuration_claim (songCount : Int) (avgMinutesPerSong : Rat := 3.5) :
    String :=
  let total : Rat := songCount * avgMinutesPerSong
  let hours : Int := ⌊total / 60⌋
  let minutes : Int := ⌊pyFmod total 60⌋
  if hours > 0 then
    toString hours ++ " hour(s) and " ++ toString minutes ++ " minute(s)"
  else
    toString minutes ++ " minute(s)"

theorem pyInt_intCast (k : Int) : pyInt (k : Rat) = k := by
  rw [pyInt]
  split
  · exact Int.floor_intCast k
  · exact Int.ceil_intCast k

theorem pyInt_pyFloorDiv (x y : Rat) : pyInt (pyFloorDiv x y) = ⌊x / y⌋ := by
  rw [pyFloorDiv, pyInt_intCast]

theorem pyFmod_nonneg (x y : Rat) (hy : 0 < y) : 0 ≤ pyFmod x y := by
  rw [pyFmod, pyFloorDiv]
  have h1 : ((⌊x / y⌋ : Int) : Rat) ≤ x / y := Int.floor_le _
  have h2 : y * ((⌊x / y⌋ : Int) : Rat) ≤ y * (x / y) :=
    mul_le_mul_of_nonneg_left h1 (le_of_lt hy)
  have h3 : y * (x / y) = x := by
    field_simp
  linarith

theorem pyInt_pyFmod_sixty (x : Rat) : pyInt (pyFmod x 60) = ⌊pyFmod x 60⌋ := by
  rw [pyInt, if_pos (pyFmod_nonneg x 60 (by norm_num))]

/-- C6: for every integer songCount and rational avgMinutesPerSong
(default 3.5), `calculate_playlist_duration` computes
total = songCount x avgMinutesPerSong, hours = floor(total/60),
minutes = floor(total mod 60), and renders the hour form exactly when
hours > 0; in particular 20 songs give "1 hour(s) and 10 minute(s)" and
10 songs give "35 minute(s)". -/
theorem playlist_duration_spec :
    (∀ (songCount : Int) (avg : Rat),
      calculate_playlist_duration songCount avg =
        estimateDuration_claim songCount avg) ∧
    calculate_playlist_duration 20 = "1 hour(s) and 10 minute(s)" ∧
    calculate_playlist_duration 10 = "35 minute(s)" := by
  refine ⟨?_, ?_, ?_⟩
  · intro n avg
    simp only [calculate_playlist_duration, estimateDuration_claim,
      pyInt_pyFloorDiv, pyInt_pyFmod_sixty]
  · rw [calculate_playlist_duration]
    norm_num [pyInt, pyFloorDiv, pyFmod]
    decide
  · rw [calculate_playlist_duration]
    norm_num [pyInt, pyFloorDiv, pyFmod]
    decide

/-- C7 counterexample: the claim says the suggested count is
floor(durationMinutes / 3.5), but at durationMinutes = -60 the code
truncates -120/7 toward zero and prints -17, while the floor is -18. -/
theorem suggest_song_count_floor_counterexample :
    suggest_song_count (-60) = "For -60 minutes, suggest approximately -17 songs" ∧
    (⌊(-60 : Rat) / 3.5⌋ : Int) = -18 := by
  constructor
  · rw [suggest_song_count]
    norm_num [pyInt, Int.ceil_neg]
    decide
  · norm_num

/-- C7 (amended): `suggest_song_count` renders
"For d minutes, suggest approximately s songs" where s is
durationMinutes / 3.5 truncated toward zero, which agrees with the floor
for every nonnegative duration; in particular 60 minutes give 17 songs. -/
theorem suggest_song_count_truncation :
    (∀ d : Int, suggest_song_count d =
      "For " ++ toString d ++ " minutes, suggest approximately "
        ++ toString (pyInt ((d : Rat) / 3.5)) ++ " songs") ∧
    suggest_song_count 60 = "For 60 minutes, suggest approximately 17 songs" ∧
    (∀ d : Int, 0 ≤ d → pyInt ((d : Rat) / 3.5) = ⌊(d : Rat) / 3.5⌋) := by
  refine ⟨fun d => rfl, ?_, ?_⟩
  · rw [suggest_song_count]
    norm_num [pyInt]
    decide
  · intro d hd
    rw [pyInt, if_pos]
    exact div_nonneg (by exact_mod_cast hd) (by norm_num)

/-- C7 witness: the amended theorem applied at duration 60. -/
theorem suggest_song_count_truncation_witness :
    pyInt ((60 : Int) / (3.5 : Rat)) = ⌊((60 : Int) : Rat) / 3.5⌋ :=
  suggest_song_count_truncation.2.2 60 (by decide)

/-- C5: `get_mood_music_keywords` lower-cases and strips both inputs,
looks each up in its fixed table with independent fallback to the
normalized input, and returns the fixed concatenation ending in
"music songs playlist"; every known mood/activity pair yields the mapped
descriptors, and unknown inputs are echoed normalized and verbatim. -/
theorem keyword_mapping_spec :
    (∀ mood activity : String,
      get_mood_music_keywords mood activity =
        ((mood_mapping.lookup (pyStrip (pyLower mood))).getD
            (pyStrip (pyLower mood))) ++ " " ++
          ((activity_mapping.lookup (pyStrip (pyLower activity))).getD
            (pyStrip (pyLower activity))) ++ " music songs playlist") ∧
    (mood_mapping.all (fun p => activity_mapping.all (fun q =>
      get_mood_music_keywords p.1 q.1 ==
        p.2 ++ " " ++ q.2 ++ " music songs playlist")) = true) ∧
    get_mood_music_keywords " Bliss " "unknown-Activity" =
      "bliss unknown-activity music songs playlist" ∧
    get_mood_music_keywords "HAPPY" " Workout " =
      "upbeat cheerful positive feel-good gym training fitness motivation high-tempo music songs playlist" := by
  refine ⟨fun mood activity => rfl, by decide, by decide, by decide⟩

theorem string_append_ne_empty (s t : String) (h : s ≠ "") : s ++ t ≠ "" := by
  intro hc
  apply h
  have hd := congrArg String.data hc
  rw [String.data_append] at hd
  exact String.ext ((List.append_eq_nil.1 hd).1)

theorem isEmpty_false_of_ne_empty (s : String) (h : s ≠ "") : s.isEmpty = false := by
  rcases hb : s.isEmpty with _ | _
  · rfl
  · exact absurd ((String.isEmpty_iff s).1 hb) h

/-- C2: for every user input, transcript and behaviour of the external
invocation (returned value of any shape, or raised exception), `chat`
returns a pair of a non-empty reply string and a transcript; in the
embedding no exception value exists to propagate. -/
theorem chat_total_no_raise :
    ∀ (input : String) (hist : List Turn) (beh : Invocation),
      ∃ (reply : String) (hist2 : List Turn),
        chat input hist beh = (reply, hist2) ∧ reply ≠ "" := by
  intro input hist beh
  refine ⟨(chat input hist beh).1, (chat input hist beh).2, rfl, ?_⟩
  by_cases h : (agent_output beh).isEmpty
  · have hfst : (chat input hist beh).1 =
        "I\x27m not sure how to respond to that. Could you rephrase?" := by
      simp [chat, h]
    rw [hfst]
    decide
  · have hfst : (chat input hist beh).1 = agent_output beh := by
      simp [chat, h]
    rw [hfst]
    intro hc
    exact h (by rw [hc]; rfl)

/-- C1: `chat` normalizes the invocation result: a mapping with a
non-empty string "output" field is returned verbatim; a mapping with the
field absent or empty yields the proper-response fallback; a `None`
result yields the no-response fallback; a raised exception yields the
apology string embedding the exception message, and nothing propagates. -/
theorem chat_normalizes_agent_result :
    (∀ (input : String) (hist : List Turn) (s : String), s ≠ "" →
      (chat input hist (.ok (.dictRes (some (.pstr s))))).1 = s) ∧
    (∀ (input : String) (hist : List Turn),
      (chat input hist (.ok (.dictRes none))).1 =
        "I didn\x27t get a proper response. Could you rephrase your question?") ∧
    (∀ (input : String) (hist : List Turn),
      (chat input hist (.ok (.dictRes (some (.pstr ""))))).1 =
        "I didn\x27t get a proper response. Could you rephrase your question?") ∧
    (∀ (input : String) (hist : List Turn),
      (chat input hist (.ok .noneRes)).1 =
        "No response was generated. Please try again.") ∧
    (∀ (input : String) (hist : List Turn) (e : String),
      (chat input hist (.exn e)).1 =
        "I encountered an error: " ++ e ++
          ". Could you please rephrase your question?") := by
  refine ⟨?_, fun input hist => rfl, fun input hist => rfl, fun input hist => rfl, ?_⟩
  · intro input hist s hs
    have hne : s.isEmpty = false := isEmpty_false_of_ne_empty s hs
    simp [chat, agent_output, normalize_response, pyTruthy, output_guard, hne]
  · intro input hist e
    have hne : ("I encountered an error: " ++ e ++
        ". Could you please rephrase your question?").isEmpty = false :=
      isEmpty_false_of_ne_empty _
        (string_append_ne_empty _ _
          (string_append_ne_empty "I encountered an error: " e (by decide)))
    simp [chat, agent_output, hne]

/-- C1 witness: the normalization clauses applied at concrete results. -/
theorem chat_normalizes_agent_result_witness :
    (chat "hey" [] (.ok (.dictRes (some (.pstr "Here is a playlist."))))).1 =
      "Here is a playlist." :=
  chat_normalizes_agent_result.1 "hey" [] "Here is a playlist." (by decide)

theorem cap_history_spec (app : List Turn) :
    (cap_history app).length ≤ 20 ∧ cap_history app <:+ app ∧
      (cap_history app).length = min 20 app.length := by
  rw [cap_history]
  split
  · next hgt =>
    refine ⟨?_, ⟨app.take (app.length - 20), List.take_append_drop _ app⟩, ?_⟩
    · rw [List.length_drop]
      omega
    · rw [List.length_drop]
      omega
  · next hle =>
    refine ⟨by omega, ⟨[], rfl⟩, by omega⟩

/-- C3: on a transcript of at most 20 entries, one chat exchange yields a
transcript of at most 20 entries that is a suffix of the appended sequence
(most recent entries, oldest-first order preserved) of length
min 20 (length of the appended sequence); and capping any 25-entry
transcript keeps exactly the most recent 20. -/
theorem transcript_cap :
    (∀ (input : String) (hist : List Turn) (beh : Invocation),
      hist.length ≤ 20 →
      ((chat input hist beh).2.length ≤ 20 ∧
        (chat input hist beh).2 <:+ update_history hist input (agent_output beh) ∧
        (chat input hist beh).2.length =
          min 20 (update_history hist input (agent_output beh)).length)) ∧
    (∀ l : List Turn, l.length = 25 →
      cap_history l = l.drop 5 ∧ (cap_history l).length = 20) := by
  constructor
  · intro input hist beh _
    exact cap_history_spec (update_history hist input (agent_output beh))
  · intro l hl
    constructor
    · rw [cap_history, if_pos (by omega), hl]
    · rw [cap_history, if_pos (by omega), List.length_drop, hl]

/-- C3 witness: the cap theorem applied to a concrete short exchange and a
concrete 25-entry transcript. -/
theorem transcript_cap_witness :
    ((chat "hi" [] (.ok .noneRes)).2.length ≤ 20 ∧
      (chat "hi" [] (.ok .noneRes)).2 <:+
        update_history [] "hi" (agent_output (.ok .noneRes)) ∧
      (chat "hi" [] (.ok .noneRes)).2.length =
        min 20 (update_history [] "hi" (agent_output (.ok .noneRes))).length) ∧
    (cap_history (List.replicate 25 ((Role.human, "x") : Turn)) =
        (List.replicate 25 ((Role.human, "x") : Turn)).drop 5 ∧
      (cap_history (List.replicate 25 ((Role.human, "x") : Turn))).length = 20) :=
  ⟨transcript_cap.1 "hi" [] (.ok .noneRes) (by decide),
   transcript_cap.2 (List.replicate 25 (Role.human, "x")) (by decide)⟩

/-- C4: in every chat exchange the pre-cap transcript is the input
transcript extended with exactly the (human, input) then
(assistant, output) pair when the normalized output is non-empty and
differs from the sentinel "No response generated", and is left unchanged
otherwise; the final transcript is the capped pre-cap transcript. -/
theorem transcript_append_condition :
    ∀ (input : String) (hist : List Turn) (beh : Invocation),
      ((chat input hist beh).2 =
        cap_history (update_history hist input (agent_output beh))) ∧
      (agent_output beh ≠ "" ∧ agent_output beh ≠ "No response generated" →
        update_history hist input (agent_output beh) =
          hist ++ [(Role.human, input), (Role.assistant, agent_output beh)]) ∧
      (agent_output beh = "" ∨ agent_output beh = "No response generated" →
        update_history hist input (agent_output beh) = hist) := by
  intro input hist beh
  refine ⟨rfl, ?_, ?_⟩
  · intro h
    rw [update_history, if_pos]
    refine ⟨?_, h.2⟩
    rw [isEmpty_false_of_ne_empty _ h.1]
    decide
  · intro h
    rw [update_history, if_neg]
    rintro ⟨h1, h2⟩
    rcases h with h | h
    · rw [h] at h1
      exact h1 rfl
    · exact h2 h

/-- C4 witness: the append clause at a result carrying a proper reply and
the unchanged clause at a result carrying the literal sentinel. -/
theorem transcript_append_condition_witness :
    (update_history [] "hello"
        (agent_output (.ok (.dictRes (some (.pstr "Sure, here."))))) =
      [(Role.human, "hello"), (Role.assistant, "Sure, here.")]) ∧
    (update_history [] "hello"
        (agent_output (.ok (.dictRes (some (.pstr "No response generated"))))) =
      []) :=
  ⟨by
    have h := (transcript_append_condition "hello" []
      (.ok (.dictRes (some (.pstr "Sure, here."))))).2.1 ⟨by decide, by decide⟩
    simpa using h,
   (transcript_append_condition "hello" []
      (.ok (.dictRes (some (.pstr "No response generated"))))).2.2
      (Or.inr (by decide))⟩

/-- C8: when either required environment secret is absent, startup exits
with status 1 carrying a remediation message and never reaches agent
construction. -/
theorem startup_missing_key_exits :
    ∀ groq_key tavily_key : Option String,
      groq_key = none ∨ tavily_key = none →
      ∃ msg : String,
        startup_check groq_key tavily_key = .exited 1 msg ∧
        reaches_agent_construction groq_key tavily_key = false := by
  intro g t h
  rcases h with h | h
  · subst h
    exact ⟨_, rfl, rfl⟩
  · subst h
    by_cases hg : (g.getD "").isEmpty
    · refine ⟨"GROQ_API_KEY not found in .env file! Please create a .env file with GROQ_API_KEY and TAVILY_API_KEY.", ?_, ?_⟩
      · rw [startup_check, if_pos hg]
      · rw [reaches_agent_construction, startup_check, if_pos hg]
    · refine ⟨"TAVILY_API_KEY not found in .env file! Please add TAVILY_API_KEY to your .env file.", ?_, ?_⟩
      · rw [startup_check, if_neg hg]
        decide
      · rw [reaches_agent_construction, startup_check, if_neg hg]
        decide

/-- C8 witness: a missing model-provider key with the search key present. -/
theorem startup_missing_key_exits_witness :
    ∃ msg : String,
      startup_check none (some "tvly-key") = .exited 1 msg ∧
      reaches_agent_construction none (some "tvly-key") = false :=
  startup_missing_key_exits none (some "tvly-key") (Or.inl rfl)

theorem pyStrip_isEmpty_false_of_pyLower_eq (raw tok : String) (htok : tok ≠ "")
    (h : pyLower (pyStrip raw) = tok) : (pyStrip raw).isEmpty = false := by
  apply isEmpty_false_of_ne_empty
  intro hc
  rw [hc] at h
  apply htok
  rw [← h]
  rfl

/-- C9: stripped input whose lower-casing equals a reserved control token
is never forwarded to the chat manager: quit/exit/q produce the quit
action, history prints the transcript preview (entries beyond 100
characters truncated with an ellipsis), and clear empties the transcript. -/
theorem loop_reserved_tokens :
    ∀ (raw : String) (hist : List Turn),
      (pyLower (pyStrip raw) = "quit" ∨ pyLower (pyStrip raw) = "exit" ∨
          pyLower (pyStrip raw) = "q" →
        loop_step raw hist = (.quitLoop, hist)) ∧
      (pyLower (pyStrip raw) = "history" →
        loop_step raw hist = (.printHistory (hist.map preview_line), hist)) ∧
      (pyLower (pyStrip raw) = "clear" →
        loop_step raw hist = (.clearHistory, [])) ∧
      (∀ t : Turn, 100 < t.2.length →
        ∃ role : String,
          preview_line t = role ++ ": " ++ (pyTake t.2 100 ++ "...")) ∧
      (pyLower (pyStrip raw) = "quit" ∨ pyLower (pyStrip raw) = "exit" ∨
          pyLower (pyStrip raw) = "q" ∨ pyLower (pyStrip raw) = "history" ∨
          pyLower (pyStrip raw) = "clear" →
        ∀ s : String, (loop_step raw hist).1 ≠ .forward s) := by
  intro raw hist
  have hquit : pyLower (pyStrip raw) = "quit" ∨ pyLower (pyStrip raw) = "exit" ∨
      pyLower (pyStrip raw) = "q" → loop_step raw hist = (.quitLoop, hist) := by
    intro h
    rcases h with h | h | h
    · have e := pyStrip_isEmpty_false_of_pyLower_eq raw "quit" (by decide) h
      simp [loop_step, h, e]
    · have e := pyStrip_isEmpty_false_of_pyLower_eq raw "exit" (by decide) h
      simp [loop_step, h, e]
    · have e := pyStrip_isEmpty_false_of_pyLower_eq raw "q" (by decide) h
      simp [loop_step, h, e]
  have hhist : pyLower (pyStrip raw) = "history" →
      loop_step raw hist = (.printHistory (hist.map preview_line), hist) := by
    intro h
    have e := pyStrip_isEmpty_false_of_pyLower_eq raw "history" (by decide) h
    simp [loop_step, h, e]
  have hclear : pyLower (pyStrip raw) = "clear" →
      loop_step raw hist = (.clearHistory, []) := by
    intro h
    have e := pyStrip_isEmpty_false_of_pyLower_eq raw "clear" (by decide) h
    simp [loop_step, h, e]
  refine ⟨hquit, hhist, hclear, ?_, ?_⟩
  · intro t ht
    obtain ⟨r, c⟩ := t
    cases r
    · exact ⟨"human", by simp [preview_line, ht]; rfl⟩
    · exact ⟨"assistant", by simp [preview_line, ht]; rfl⟩
  · intro h s
    rcases h with h | h | h | h | h
    · rw [hquit (Or.inl h)]
      simp
    · rw [hquit (Or.inr (Or.inl h))]
      simp
    · rw [hquit (Or.inr (Or.inr h))]
      simp
    · rw [hhist h]
      simp
    · rw [hclear h]
      simp

/-- C9 witness: the reserved tokens exercised on concrete input lines. -/
theorem loop_reserved_tokens_witness :
    loop_step " Clear " [(Role.human, "a"), (Role.assistant, "b")] =
      (.clearHistory, []) :=
  (loop_reserved_tokens " Clear "
    [(Role.human, "a"), (Role.assistant, "b")]).2.2.1 (by decide)

theorem alternatingPairs_append_pair :
    ∀ (h : List Turn) (u o : String), alternatingPairs h = true →
      alternatingPairs (h ++ [(Role.human, u), (Role.assistant, o)]) = true
  | [], u, o, _ => by simp [alternatingPairs]
  | [t], u, o, hp => by
    obtain ⟨r, c⟩ := t
    cases r <;> simp [alternatingPairs] at hp
  | (r1, c1) :: (r2, c2) :: rest, u, o, hp => by
    cases r1 <;> cases r2 <;> simp [alternatingPairs] at hp ⊢
    exact alternatingPairs_append_pair rest u o hp

theorem alternatingPairs_length_even :
    ∀ h : List Turn, alternatingPairs h = true → h.length % 2 = 0
  | [], _ => rfl
  | [t], hp => by
    obtain ⟨r, c⟩ := t
    cases r <;> simp [alternatingPairs] at hp
  | (r1, c1) :: (r2, c2) :: rest, hp => by
    cases r1 <;> cases r2 <;> simp [alternatingPairs] at hp
    have := alternatingPairs_length_even rest hp
    simp [List.length_cons]
    omega

theorem alternatingPairs_drop_two :
    ∀ h : List Turn, alternatingPairs h = true →
      alternatingPairs (h.drop 2) = true
  | [], _ => rfl
  | [t], hp => by
    obtain ⟨r, c⟩ := t
    cases r <;> simp [alternatingPairs] at hp
  | (r1, c1) :: (r2, c2) :: rest, hp => by
    cases r1 <;> cases r2 <;> simp [alternatingPairs] at hp ⊢
    exact hp

theorem session_step_preserves (h : List Turn) (op : SessionOp)
    (hp : alternatingPairs h = true) (hl : h.length ≤ 20) :
    alternatingPairs (session_step h op) = true ∧
      (session_step h op).length ≤ 20 := by
  cases op with
  | clearAll => exact ⟨rfl, by simp [session_step]⟩
  | exchange input beh =>
    have hrw : session_step h (SessionOp.exchange input beh) =
        cap_history (update_history h input (agent_output beh)) := rfl
    rw [hrw, update_history]
    split
    · set p1 : Turn := (Role.human, input) with hp1
      set p2 : Turn := (Role.assistant, agent_output beh) with hp2
      have hap : alternatingPairs (h ++ [p1, p2]) = true :=
        alternatingPairs_append_pair h input (agent_output beh) hp
      have hlen2 : (h ++ [p1, p2]).length = h.length + 2 := by
        simp
      rw [cap_history]
      split
      · next hgt =>
        have heven := alternatingPairs_length_even h hp
        have h20 : h.length = 20 := by omega
        have hdrop : (h ++ [p1, p2]).length - 20 = 2 := by omega
        rw [hdrop]
        constructor
        · exact alternatingPairs_drop_two _ hap
        · rw [List.length_drop]
          omega
      · next hle =>
        exact ⟨hap, by omega⟩
    · rw [cap_history, if_neg (by omega)]
      exact ⟨hp, hl⟩

theorem run_session_invariant :
    ∀ (ops : List SessionOp) (h : List Turn),
      alternatingPairs h = true → h.length ≤ 20 →
      alternatingPairs (ops.foldl session_step h) = true ∧
        (ops.foldl session_step h).length ≤ 20
  | [], h, hp, hl => ⟨hp, hl⟩
  | op :: ops, h, hp, hl => by
    rw [List.foldl_cons]
    obtain ⟨hp2, hl2⟩ := session_step_preserves h op hp hl
    exact run_session_invariant ops _ hp2 hl2

/-- C10: starting from the empty transcript, after any sequence of chat
exchanges and clear operations the transcript is a sequence of complete
(human, _) then (assistant, _) pairs, hence of even length, and never
exceeds 20 entries. -/
theorem transcript_alternation_invariant :
    ∀ ops : List SessionOp,
      alternatingPairs (run_session ops) = true ∧
      (run_session ops).length % 2 = 0 ∧
      (run_session ops).length ≤ 20 := by
  intro ops
  obtain ⟨hp, hl⟩ := run_session_invariant ops [] rfl (by decide)
  exact ⟨hp, alternatingPairs_length_even _ hp, hl⟩

end PlaylistCurator
